import Mathlib

/-!
Shallow embedding of the Ethereum contract-audit pipeline
(`src/tools/audit.js` of the repository): the `analyzeAddress`
orchestrator and its helpers `checkIfContract`, `getContractCreationInfo`,
`checkIfVerified`, `detectContractStandards`,
`detectContractTypeFromBytecode` and `analyzeContractSecurity`.

External collaborators (the web3 node, the Etherscan HTTP API and the
JSON parser of the JavaScript runtime) are modelled as an explicit
environment record of pure, possibly-failing functions
(`Except String _` models a rejected promise carrying `error.message`).
JavaScript `String.prototype.includes` is modelled by `strIncludes`.
-/

/-- `List.isPrefixOf`-based substring occurrence test on char lists:
`true` iff `pat` occurs contiguously inside `l`. -/
def subOccurs (pat : List Char) : List Char → Bool
  | [] => pat.isPrefixOf []
  | c :: rest => pat.isPrefixOf (c :: rest) || subOccurs pat rest

/-- Model of JavaScript `hay.includes(pat)` for strings. -/
def strIncludes (hay pat : String) : Bool :=
  subOccurs pat.toList hay.toList

/-! ## Security heuristics (`analyzeContractSecurity`) -/

/-- One entry of the `issues` array pushed by `analyzeContractSecurity`. -/
structure SecurityFinding where
  severity : String
  issue : String
  description : String
deriving DecidableEq, Repr

/-- The object returned by `analyzeContractSecurity`:
`{ issuesFound: issues.length > 0, issues }`. -/
structure SecurityReport where
  issuesFound : Bool
  issues : List SecurityFinding
deriving DecidableEq, Repr

/-- JavaScript `\s` (whitespace class), restricted to the ASCII range
that can occur in Solidity source text. -/
def jsWhitespace (c : Char) : Bool :=
  c = ' ' || c = '\t' || c = '\n' || c = '\x0b' || c = '\x0c' || c = '\r'

/-- JavaScript line terminators, which `.` in a regex does not match. -/
def jsLineTerm (c : Char) : Bool :=
  c = '\n' || c = '\r'

/-- Drop the longest prefix of JavaScript whitespace. -/
def dropJsWs : List Char → List Char
  | [] => []
  | c :: rest => if jsWhitespace c then dropJsWs rest else c :: rest

/-- Match the tail `\.call\s*\(` of the unchecked-call regex at the
head of the list. -/
def matchCallParen (l : List Char) : Bool :=
  match l.dropPrefix? ".call".toList with
  | some r =>
    match dropJsWs r with
    | '(' :: _ => true
    | _ => false
  | none => false

/-- Match `.*\.call\s*\(` at the head of the list: scan forward over
non-line-terminator characters looking for the tail pattern. -/
def matchDotStarCall : List Char → Bool
  | [] => matchCallParen []
  | c :: rest =>
    matchCallParen (c :: rest) || (!jsLineTerm c && matchDotStarCall rest)

/-- Match the regex `require\s*\(\s*.*\.call\s*\(` at the head of the
list (the `\s*` runs are followed by characters outside the class, so
greedy matching is exact). -/
def matchRequireCallAt (l : List Char) : Bool :=
  match l.dropPrefix? "require".toList with
  | some r =>
    match dropJsWs r with
    | '(' :: r2 => matchDotStarCall (dropJsWs r2)
    | _ => false
  | none => false

/-- Model of `sourceCode.match(/require\s*\(\s*.*\.call\s*\(/g)`
being non-null: the pattern matches at some position. -/
def requireCallSearch : List Char → Bool
  | [] => matchRequireCallAt []
  | c :: rest => matchRequireCallAt (c :: rest) || requireCallSearch rest

/-- The five rule conditions of `analyzeContractSecurity`, in source order. -/
def reentrancyCond (sourceCode : String) : Bool :=
  strIncludes sourceCode "call.value" && !strIncludes sourceCode "ReentrancyGuard"

def txOriginCond (sourceCode : String) : Bool :=
  strIncludes sourceCode "tx.origin"

def uncheckedCallCond (sourceCode : String) : Bool :=
  (strIncludes sourceCode ".call(" || strIncludes sourceCode ".delegatecall(")
    && !requireCallSearch sourceCode.toList

def timestampCond (sourceCode : String) : Bool :=
  strIncludes sourceCode "block.timestamp" || strIncludes sourceCode "now"

def selfdestructCond (sourceCode : String) : Bool :=
  strIncludes sourceCode "selfdestruct" || strIncludes sourceCode "suicide"

/-- The five findings pushed by `analyzeContractSecurity`, in source order. -/
def reentrancyFinding : SecurityFinding :=
  { severity := "High"
    issue := "Potential reentrancy vulnerability"
    description := "Contract uses call.value without ReentrancyGuard or checks-effects-interactions pattern" }

def txOriginFinding : SecurityFinding :=
  { severity := "Medium"
    issue := "tx.origin used for authentication"
    description := "Using tx.origin for authentication can be exploited by phishing attacks" }

def uncheckedCallFinding : SecurityFinding :=
  { severity := "Medium"
    issue := "Unchecked external call"
    description := "External calls without checking return value can lead to silent failures" }

def timestampFinding : SecurityFinding :=
  { severity := "Low"
    issue := "Timestamp dependence"
    description := "Using block.timestamp for critical logic can be manipulated by miners" }

def selfdestructFinding : SecurityFinding :=
  { severity := "High"
    issue := "Unprotected self-destruct"
    description := "Self-destruct functionality found - ensure it has proper access controls" }

/-- `analyzeContractSecurity(sourceCode)`: the five conditional pushes
onto `issues`, in source order. -/
def analyzeContractSecurity (sourceCode : String) : SecurityReport :=
  let issues : List SecurityFinding := []
  let issues := if reentrancyCond sourceCode then issues ++ [reentrancyFinding] else issues
  let issues := if txOriginCond sourceCode then issues ++ [txOriginFinding] else issues
  let issues := if uncheckedCallCond sourceCode then issues ++ [uncheckedCallFinding] else issues
  let issues := if timestampCond sourceCode then issues ++ [timestampFinding] else issues
  let issues := if selfdestructCond sourceCode then issues ++ [selfdestructFinding] else issues
  { issuesFound := issues.length > 0, issues := issues }

/-- The scanner as a declarative rule table: condition paired with the
finding it contributes, in declaration order. -/
def securityRules : List ((String → Bool) × SecurityFinding) :=
  [ (reentrancyCond, reentrancyFinding)
  , (txOriginCond, txOriginFinding)
  , (uncheckedCallCond, uncheckedCallFinding)
  , (timestampCond, timestampFinding)
  , (selfdestructCond, selfdestructFinding) ]

/-! ## Standard detection (`detectContractStandards`) -/

/-- An ABI entry as consumed by `detectContractStandards`
(`item.type` and `item.name`). -/
structure ABIEntry where
  type : String
  name : String
deriving DecidableEq, Repr

/-- The `{ isERC20, isERC721, isERC1155 }` object. -/
structure Standards where
  isERC20 : Bool
  isERC721 : Bool
  isERC1155 : Bool
deriving DecidableEq, Repr

def erc20Functions : List String :=
  ["totalSupply", "balanceOf", "transfer", "transferFrom", "approve", "allowance"]

def erc721Functions : List String :=
  ["balanceOf", "ownerOf", "safeTransferFrom", "transferFrom", "approve",
   "getApproved", "setApprovalForAll", "isApprovedForAll"]

def erc1155Functions : List String :=
  ["balanceOf", "balanceOfBatch", "setApprovalForAll", "isApprovedForAll",
   "safeTransferFrom", "safeBatchTransferFrom"]

/-- `abi.filter(item => item.type === 'function').map(func => func.name)`. -/
def functionNames (abi : List ABIEntry) : List String :=
  (abi.filter (fun item => item.type == "function")).map (fun f => f.name)

/-- `detectContractStandards(address, abi)`; `none` models a missing or
non-array ABI (the `!abi || !Array.isArray(abi)` early return). The
`address` parameter is unused in the source and omitted. -/
def detectContractStandards (abi : Option (List ABIEntry)) : Standards :=
  match abi with
  | none =>
    { isERC20 := false, isERC721 := false, isERC1155 := false }
  | some abi =>
    let names := functionNames abi
    { isERC20 := erc20Functions.all (fun f => names.contains f)
      isERC721 := erc721Functions.all (fun f => names.contains f)
      isERC1155 := erc1155Functions.all (fun f => names.contains f) }

/-! ## Bytecode classification (`detectContractTypeFromBytecode`) -/

/-- `detectContractTypeFromBytecode(bytecode)`: the if-chain of
substring tests, in source order. -/
def detectContractTypeFromBytecode (bytecode : String) : String :=
  if strIncludes bytecode "06fdde03" && strIncludes bytecode "95d89b41"
      && strIncludes bytecode "18160ddd" then
    "Likely Token (ERC20/ERC721)"
  else if strIncludes bytecode "01ffc9a7" then
    "Supports ERC165 Interface Detection"
  else if strIncludes bytecode "e8a3d485" then
    "Possible Uniswap-related contract"
  else if strIncludes bytecode "6080604052" then
    "Solidity 0.4.x+ Contract"
  else
    "Unknown Contract Type"

/-- The same classifier as an ordered rule table: each rule is a list of
required substrings paired with its label. -/
def bytecodeRules : List (List String × String) :=
  [ (["06fdde03", "95d89b41", "18160ddd"], "Likely Token (ERC20/ERC721)")
  , (["01ffc9a7"], "Supports ERC165 Interface Detection")
  , (["e8a3d485"], "Possible Uniswap-related contract")
  , (["6080604052"], "Solidity 0.4.x+ Contract") ]

/-- A rule matches when each of its required substrings occurs in the
bytecode. -/
def ruleMatches (bytecode : String) (r : List String × String) : Bool :=
  r.1.all (fun p => strIncludes bytecode p)

/-- First-match-wins evaluation of the rule table. -/
def firstMatchLabel (bytecode : String) : String :=
  match bytecodeRules.find? (ruleMatches bytecode) with
  | some r => r.2
  | none => "Unknown Contract Type"

/-! ## External responses and the environment -/

/-- One element of `data.result` of the Etherscan
`getcontractcreation` response. -/
structure CreationRecord where
  contractCreator : String
  txHash : String
deriving DecidableEq, Repr

/-- The Etherscan `getcontractcreation` response body. -/
structure CreationResponse where
  status : String
  result : List CreationRecord
deriving DecidableEq, Repr

/-- `txResponse.data.result` of `eth_getTransactionByHash`; the
`blockNumber` field is the hex block-number string. -/
structure TxInfo where
  blockNumber : String
deriving DecidableEq, Repr

/-- The `eth_getTransactionByHash` response body
(`result` may be `null`). -/
structure TxByHashResponse where
  result : Option TxInfo
deriving DecidableEq, Repr

/-- `blockResponse.data.result` of `getblockreward`. -/
structure BlockRewardRecord where
  timeStamp : String
deriving DecidableEq, Repr

/-- The `getblockreward` response body. -/
structure BlockRewardResponse where
  status : String
  result : Option BlockRewardRecord
deriving DecidableEq, Repr

/-- One element of `data.result` of the Etherscan `getsourcecode`
response. -/
structure SourceRecord where
  SourceCode : String
  ContractName : String
  ABI : String
deriving DecidableEq, Repr

/-- The Etherscan `getsourcecode` response body. -/
structure SourceCodeResponse where
  status : String
  result : List SourceRecord
deriving DecidableEq, Repr

/-- The external collaborators of the pipeline, as pure functions.
`Except String _` models a promise that may reject with a message
(`error.message`); `web3.utils` and `JSON.parse` are oracles supplied
by the runtime. `getBlockReward` takes the result of `parseInt(_, 16)`
on the transaction's block-number string, `none` standing for `NaN`. -/
structure Env where
  isAddress : String → Bool
  toChecksumAddress : String → String
  getCode : String → Except String String
  getBalance : String → Except String Nat
  getTransactionCount : String → Except String Nat
  fromWei : Nat → String
  getContractCreation : String → Except String CreationResponse
  getTransactionByHash : String → Except String TxByHashResponse
  getBlockReward : Option Nat → Except String BlockRewardResponse
  getSourceCode : String → Except String SourceCodeResponse
  jsonParseAbi : String → Except String (List ABIEntry)

/-! ## Hex parsing (`parseInt(blockNumber, 16)`) -/

/-- Value of one hexadecimal digit. -/
def hexVal (c : Char) : Option Nat :=
  if '0' ≤ c ∧ c ≤ '9' then some (c.toNat - '0'.toNat)
  else if 'a' ≤ c ∧ c ≤ 'f' then some (c.toNat - 'a'.toNat + 10)
  else if 'A' ≤ c ∧ c ≤ 'F' then some (c.toNat - 'A'.toNat + 10)
  else none

/-- Longest prefix of hexadecimal digit values. -/
def takeHexDigits : List Char → List Nat
  | [] => []
  | c :: rest =>
    match hexVal c with
    | some v => v :: takeHexDigits rest
    | none => []

/-- `parseInt(s, 16)` on a block-number string: optional `0x`/`0X`
prefix then the longest run of hex digits; `none` models `NaN`
(no digits). Leading-whitespace and sign handling are omitted, as the
inputs are explorer-issued hex strings. -/
def parseHexNat (s : String) : Option Nat :=
  let l := s.toList
  let l := if l.take 2 = ['0', 'x'] ∨ l.take 2 = ['0', 'X'] then l.drop 2 else l
  match takeHexDigits l with
  | [] => none
  | ds => some (ds.foldl (fun acc d => acc * 16 + d) 0)

/-! ## The pipeline helpers over the environment -/

/-- `checkIfContract(web3, address)`: `getCode` then
`code !== '0x' && code !== '0x0'`; any error is caught locally and
yields `false`. -/
def checkIfContract (env : Env) (address : String) : Bool :=
  match env.getCode address with
  | .ok code => !(code == "0x" || code == "0x0")
  | .error _ => false

/-- The object returned by `getContractCreationInfo`. -/
structure CreationInfo where
  contractCreator : String
  txHash : String
  timestamp : Option String
deriving DecidableEq, Repr

/-- The inner `try` of `getContractCreationInfo`: recover a timestamp
from the creation transaction hash, `none` on any failure or missing
datum. -/
def lookupCreationTimestamp (env : Env) (txHash : String) : Option String :=
  match env.getTransactionByHash txHash with
  | .error _ => none
  | .ok txResponse =>
    match txResponse.result with
    | none => none
    | some txInfo =>
      if txInfo.blockNumber != "" then
        match env.getBlockReward (parseHexNat txInfo.blockNumber) with
        | .error _ => none
        | .ok blockResponse =>
          if blockResponse.status == "1" then
            match blockResponse.result with
            | some record => some record.timeStamp
            | none => none
          else none
      else none

/-- `getContractCreationInfo(address)`: creation lookup, then the
locally-caught timestamp recovery; `none` models the `null` returns. -/
def getContractCreationInfo (env : Env) (address : String) : Option CreationInfo :=
  match env.getContractCreation address with
  | .error _ => none
  | .ok data =>
    if data.status != "1" then none
    else
      match data.result with
      | [] => none
      | r0 :: _ =>
        some { contractCreator := r0.contractCreator
               txHash := r0.txHash
               timestamp := lookupCreationTimestamp env r0.txHash }

/-- The object returned by `checkIfVerified`. -/
structure VerificationInfo where
  isVerified : Bool
  contractName : Option String := none
  sourceCode : Option String := none
  abi : Option (List ABIEntry) := none
deriving DecidableEq, Repr

/-- `checkIfVerified(address)`: source lookup on Etherscan; verified iff
the `SourceCode` payload is truthy, not `"{}"` and longer than two
characters; the ABI string is JSON-parsed only when verified. Any
error (network or ABI parse) is caught locally and yields
`{ isVerified: false }`. -/
def checkIfVerified (env : Env) (address : String) : VerificationInfo :=
  match env.getSourceCode address with
  | .error _ => { isVerified := false }
  | .ok data =>
    if data.status != "1" then { isVerified := false }
    else
      match data.result with
      | [] => { isVerified := false }
      | contractData :: _ =>
        let isVerified :=
          contractData.SourceCode != "" && contractData.SourceCode != "{}"
            && contractData.SourceCode.length > 2
        if isVerified then
          match env.jsonParseAbi contractData.ABI with
          | .error _ => { isVerified := false }
          | .ok abi =>
            { isVerified := true
              contractName := some contractData.ContractName
              sourceCode := some contractData.SourceCode
              abi := some abi }
        else
          { isVerified := false
            contractName := some contractData.ContractName
            sourceCode := some contractData.SourceCode
            abi := none }

/-! ## The orchestrator (`analyzeAddress`) -/

/-- The analysis result object built by `analyzeAddress`. Fields the
JavaScript object only acquires on some paths are `Option` with
default `none` (absent). -/
structure Report where
  address : String
  isContract : Bool
  isVerified : Bool
  contractName : Option String := none
  contractCreator : Option String := none
  creationTx : Option String := none
  creationTimestamp : Option String := none
  contractCode : Option String := none
  sourceCode : Option String := none
  abi : Option (List ABIEntry) := none
  error : Option String := none
  ethBalance : Option String := none
  transactionCount : Option Nat := none
  standards : Option Standards := none
  probableType : Option String := none
  securityAnalysis : Option SecurityReport := none
deriving DecidableEq, Repr

/-- Truthiness of `verificationInfo.sourceCode` in
`analyzeAddress` (`undefined` or the empty string are falsy). -/
def truthyStr : Option String → Bool
  | none => false
  | some s => s != ""

/-- The body of the `try` block of `analyzeAddress`: `.error` marks an
exception escaping to the outer `catch`. -/
def analyzeAddressCore (env : Env) (address : String) : Except String Report :=
  if !env.isAddress address then
    .error "Invalid Ethereum address format"
  else
    let formattedAddress := env.toChecksumAddress address
    let isContract := checkIfContract env formattedAddress
    let result : Report :=
      { address := formattedAddress
        isContract := isContract
        isVerified := false }
    if !isContract then
      match env.getBalance formattedAddress with
      | .error e => .error e
      | .ok balance =>
        match env.getTransactionCount formattedAddress with
        | .error e => .error e
        | .ok txCount =>
          .ok { result with
                error := some "Address is not a contract"
                ethBalance := some (env.fromWei balance)
                transactionCount := some txCount }
    else
      let creationInfo := getContractCreationInfo env formattedAddress
      let result :=
        match creationInfo with
        | some info =>
          { result with
            contractCreator := some info.contractCreator
            creationTx := some info.txHash
            creationTimestamp := info.timestamp }
        | none => result
      let verificationInfo := checkIfVerified env formattedAddress
      let result := { result with isVerified := verificationInfo.isVerified }
      match env.getCode formattedAddress with
      | .error e => .error e
      | .ok bytecode =>
        let result := { result with contractCode := some bytecode }
        let result :=
          if verificationInfo.isVerified then
            { result with
              sourceCode := verificationInfo.sourceCode
              contractName := verificationInfo.contractName
              abi := verificationInfo.abi
              standards := some (detectContractStandards verificationInfo.abi) }
          else
            { result with
              error := some "Contract is not verified on Etherscan"
              probableType := some (detectContractTypeFromBytecode bytecode) }
        let result :=
          if verificationInfo.isVerified && truthyStr verificationInfo.sourceCode then
            { result with
              securityAnalysis :=
                some (analyzeContractSecurity (verificationInfo.sourceCode.getD "")) }
          else result
        .ok result

/-- The outer `catch` of `analyzeAddress`: a degraded report carrying
the RAW input address and the error message. -/
def degradedReport (address : String) (msg : String) : Report :=
  { address := address
    isContract := false
    isVerified := false
    contractCode := none
    sourceCode := none
    error := some msg }

/-- `analyzeAddress(web3, address)`: the `try` body with its outer
`catch`. -/
def analyzeAddress (env : Env) (address : String) : Report :=
  match analyzeAddressCore env address with
  | .ok r => r
  | .error e => degradedReport address e

/-! ## Concrete environments used in witnesses and counterexamples -/

/-- A full ERC-20 plus ERC-721 function surface as ABI entries. -/
def erc20And721Abi : List ABIEntry :=
  (erc20Functions ++ erc721Functions).map (fun n => { type := "function", name := n })

/-! ## Theorems -/

/-- C3: `detectContractStandards` declares each of ERC20/ERC721/ERC1155
present iff every name in that standard's fixed required-function list
appears among the ABI's function-type entry names; the checks are
independent, so an ABI carrying both the full ERC-20 and ERC-721 name
lists is reported as both at once. -/
theorem detectContractStandards_iff_required_names :
    (∀ abi : List ABIEntry,
      ((detectContractStandards (some abi)).isERC20 = true ↔
        ∀ f ∈ erc20Functions, f ∈ functionNames abi) ∧
      ((detectContractStandards (some abi)).isERC721 = true ↔
        ∀ f ∈ erc721Functions, f ∈ functionNames abi) ∧
      ((detectContractStandards (some abi)).isERC1155 = true ↔
        ∀ f ∈ erc1155Functions, f ∈ functionNames abi)) ∧
    (detectContractStandards (some erc20And721Abi)).isERC20 = true ∧
    (detectContractStandards (some erc20And721Abi)).isERC721 = true := by
  refine ⟨fun abi => ⟨?_, ?_, ?_⟩, by decide, by decide⟩ <;>
    simp [detectContractStandards, List.contains, List.all_eq_true]

/-- Witness for C3 at a concrete ABI: the full ERC-20 name list makes
`isERC20` true. -/
theorem detectContractStandards_iff_required_names_witness :
    (detectContractStandards (some (erc20Functions.map
      (fun n => { type := "function", name := n })))).isERC20 = true :=
  ((detectContractStandards_iff_required_names.1 _).1).mpr (by decide)

/-- C9: `detectContractStandards` is monotonic — appending a function
entry to the ABI never turns a standard flag from true to false. -/
theorem detectContractStandards_monotone :
    ∀ (abi : List ABIEntry) (e : ABIEntry),
      ((detectContractStandards (some abi)).isERC20 = true →
        (detectContractStandards (some (abi ++ [e]))).isERC20 = true) ∧
      ((detectContractStandards (some abi)).isERC721 = true →
        (detectContractStandards (some (abi ++ [e]))).isERC721 = true) ∧
      ((detectContractStandards (some abi)).isERC1155 = true →
        (detectContractStandards (some (abi ++ [e]))).isERC1155 = true) := by
  intro abi e
  refine ⟨?_, ?_, ?_⟩ <;>
    · simp only [detectContractStandards, functionNames, List.contains,
        List.all_eq_true, List.filter_append, List.map_append,
        List.elem_eq_mem, decide_eq_true_iff]
      intro h f hf
      exact List.mem_append_left _ (h f hf)

/-- Witness for C9: a concrete ERC-20 ABI keeps `isERC20` after an
extra entry is appended. -/
theorem detectContractStandards_monotone_witness :
    (detectContractStandards (some (erc20Functions.map
      (fun n => { type := "function", name := n })))).isERC20 = true ∧
    (detectContractStandards (some ((erc20Functions.map
      (fun n => { type := "function", name := n })) ++
        [{ type := "function", name := "mint" }]))).isERC20 = true :=
  ⟨by decide,
   (detectContractStandards_monotone _ { type := "function", name := "mint" }).1
     (by decide)⟩

/-- The if-chain of `detectContractTypeFromBytecode` agrees with
first-match-wins evaluation of the rule table. -/
theorem detect_eq_firstMatchLabel (bytecode : String) :
    detectContractTypeFromBytecode bytecode = firstMatchLabel bytecode := by
  cases h1 : strIncludes bytecode "06fdde03" <;>
    cases h2 : strIncludes bytecode "95d89b41" <;>
      cases h3 : strIncludes bytecode "18160ddd" <;>
        cases h4 : strIncludes bytecode "01ffc9a7" <;>
          cases h5 : strIncludes bytecode "e8a3d485" <;>
            cases h6 : strIncludes bytecode "6080604052" <;>
              simp [detectContractTypeFromBytecode, firstMatchLabel,
                bytecodeRules, ruleMatches, List.find?, h1, h2, h3, h4, h5, h6]

/-- C4: `detectContractTypeFromBytecode` equals first-match-wins
evaluation of the ordered rule table; when a rule matches, a
later-declared rule also matches, and no earlier-declared rule matches,
the earlier of the two matching rules' label is returned; the
three-selector bytecode yields the token label and a bytecode matching
no rule yields the unknown label. -/
theorem detectContractTypeFromBytecode_firstMatch :
    ∀ bytecode : String,
      detectContractTypeFromBytecode bytecode = firstMatchLabel bytecode ∧
      (∀ pre r post, bytecodeRules = pre ++ r :: post →
        ruleMatches bytecode r = true →
        (∃ r2 ∈ post, ruleMatches bytecode r2 = true) →
        (∀ r0 ∈ pre, ruleMatches bytecode r0 = false) →
        detectContractTypeFromBytecode bytecode = r.2) ∧
      (strIncludes bytecode "06fdde03" = true →
        strIncludes bytecode "95d89b41" = true →
        strIncludes bytecode "18160ddd" = true →
        detectContractTypeFromBytecode bytecode = "Likely Token (ERC20/ERC721)") ∧
      ((∀ r ∈ bytecodeRules, ruleMatches bytecode r = false) →
        detectContractTypeFromBytecode bytecode = "Unknown Contract Type") := by
  intro bytecode
  refine ⟨detect_eq_firstMatchLabel bytecode, fun pre r post hsplit hm _hpost hpre => ?_,
    ?_, ?_⟩
  · rw [detect_eq_firstMatchLabel, firstMatchLabel, hsplit, List.find?_append,
      List.find?_eq_none.mpr (fun r0 hr0 => by simp [hpre r0 hr0]),
      List.find?_cons_of_pos _ hm]
    rfl
  · intro g1 g2 g3
    simp [detectContractTypeFromBytecode, g1, g2, g3]
  · intro hnone
    rw [detect_eq_firstMatchLabel, firstMatchLabel, List.find?_eq_none.mpr
      (fun r hr => by simp [hnone r hr])]

/-- Witness for C4: `"01ffc9a7e8a3d485"` matches the ERC165 rule
(position 1) and the Uniswap rule (position 2) but not the token rule,
so the ERC165 label is returned. -/
theorem detectContractTypeFromBytecode_firstMatch_witness :
    detectContractTypeFromBytecode "01ffc9a7e8a3d485" =
      "Supports ERC165 Interface Detection" :=
  ((detectContractTypeFromBytecode_firstMatch "01ffc9a7e8a3d485").2.1
    [(["06fdde03", "95d89b41", "18160ddd"], "Likely Token (ERC20/ERC721)")]
    (["01ffc9a7"], "Supports ERC165 Interface Detection")
    [(["e8a3d485"], "Possible Uniswap-related contract")
    , (["6080604052"], "Solidity 0.4.x+ Contract")]
    (by decide) (by decide)
    ⟨(["e8a3d485"], "Possible Uniswap-related contract"), by decide, by decide⟩
    (by decide))

/-- The if-chain of `analyzeContractSecurity` agrees with filtering the
ordered rule table: triggered findings, in declaration order. -/
theorem analyzeContractSecurity_issues_eq (src : String) :
    (analyzeContractSecurity src).issues =
      (securityRules.filter (fun r => r.1 src)).map (fun r => r.2) := by
  cases h1 : reentrancyCond src <;>
    cases h2 : txOriginCond src <;>
      cases h3 : uncheckedCallCond src <;>
        cases h4 : timestampCond src <;>
          cases h5 : selfdestructCond src <;>
            simp [analyzeContractSecurity, securityRules, h1, h2, h3, h4, h5]

/-- C5: the findings list of `analyzeContractSecurity` is exactly the
ordered rule table filtered by which conditions hold (each rule
contributes at most its one finding, in declaration order), and a
source containing `call.value` but no `ReentrancyGuard` marker gets
exactly one High-severity reentrancy finding. -/
theorem analyzeContractSecurity_rule_order_and_reentrancy :
    ∀ src : String,
      (analyzeContractSecurity src).issues =
        (securityRules.filter (fun r => r.1 src)).map (fun r => r.2) ∧
      (strIncludes src "call.value" = true →
        strIncludes src "ReentrancyGuard" = false →
        ((analyzeContractSecurity src).issues.countP
          (fun f => f.severity == "High" &&
            f.issue == "Potential reentrancy vulnerability")) = 1) := by
  intro src
  refine ⟨analyzeContractSecurity_issues_eq src, fun hcv hrg => ?_⟩
  have h1 : reentrancyCond src = true := by
    simp [reentrancyCond, hcv, hrg]
  rw [analyzeContractSecurity_issues_eq src]
  cases h2 : txOriginCond src <;>
    cases h3 : uncheckedCallCond src <;>
      cases h4 : timestampCond src <;>
        cases h5 : selfdestructCond src <;>
          simp [securityRules, h1, h2, h3, h4, h5, List.countP_cons,
            reentrancyFinding, txOriginFinding, uncheckedCallFinding,
            timestampFinding, selfdestructFinding]

/-- Witness for C5 at the concrete source text `"call.value"`. -/
theorem analyzeContractSecurity_rule_order_and_reentrancy_witness :
    ((analyzeContractSecurity "call.value").issues.countP
      (fun f => f.severity == "High" &&
        f.issue == "Potential reentrancy vulnerability")) = 1 :=
  (analyzeContractSecurity_rule_order_and_reentrancy "call.value").2
    (by decide) (by decide)

/-- An environment where the address holds no code and balance/nonce
lookups succeed. -/
def envNotContract : Env :=
  { isAddress := fun _ => true
    toChecksumAddress := fun _ => "0xAB"
    getCode := fun _ => .ok "0x"
    getBalance := fun _ => .ok 1000000000000000000
    getTransactionCount := fun _ => .ok 7
    fromWei := fun _ => "1"
    getContractCreation := fun _ => .error "unused"
    getTransactionByHash := fun _ => .error "unused"
    getBlockReward := fun _ => .error "unused"
    getSourceCode := fun _ => .error "unused"
    jsonParseAbi := fun _ => .error "unused" }

/-- As `envNotContract`, but the balance lookup rejects. -/
def envBalanceFail : Env :=
  { envNotContract with getBalance := fun _ => .error "network down" }

/-- As `envNotContract`, but `getCode` itself rejects with a network
error while balance/nonce lookups succeed. -/
def envCodeFail : Env :=
  { envNotContract with
    getCode := fun _ => .error "network error"
    getBalance := fun _ => .ok 5
    fromWei := fun _ => "5"
    getTransactionCount := fun _ => .ok 2 }

/-- A verified contract whose creation lookup succeeds while the
transaction and block lookups both reject. -/
def envVerified : Env :=
  { isAddress := fun _ => true
    toChecksumAddress := fun _ => "0xAB"
    getCode := fun _ => .ok "0x6080604052"
    getBalance := fun _ => .error "unused"
    getTransactionCount := fun _ => .error "unused"
    fromWei := fun _ => "0"
    getContractCreation := fun _ =>
      .ok { status := "1"
            result := [{ contractCreator := "0xCREATOR", txHash := "0xTXHASH" }] }
    getTransactionByHash := fun _ => .error "tx lookup down"
    getBlockReward := fun _ => .error "block lookup down"
    getSourceCode := fun _ =>
      .ok { status := "1"
            result := [{ SourceCode := "contract Foo ... source text"
                         ContractName := "Foo"
                         ABI := "[]" }] }
    jsonParseAbi := fun _ => .ok [] }

/-- C1: in every report of `analyzeAddress`, `standards` is populated
iff `isVerified` is true, `probableType` is populated iff the address
is a contract and unverified, and the two are never both populated. -/
theorem analyzeAddress_standards_probableType_partition :
    ∀ (env : Env) (address : String),
      ((analyzeAddress env address).standards.isSome =
        (analyzeAddress env address).isVerified) ∧
      ((analyzeAddress env address).probableType.isSome =
        ((analyzeAddress env address).isContract &&
          !(analyzeAddress env address).isVerified)) ∧
      ((analyzeAddress env address).standards.isSome &&
        (analyzeAddress env address).probableType.isSome) = false := by
  intro env address
  simp only [analyzeAddress, analyzeAddressCore]
  cases hA : env.isAddress address
  · simp [degradedReport]
  · cases hC : checkIfContract env (env.toChecksumAddress address)
    · cases hB : env.getBalance (env.toChecksumAddress address)
      · simp [degradedReport]
      · cases hT : env.getTransactionCount (env.toChecksumAddress address)
        · simp [degradedReport]
        · simp
    · cases hCI : getContractCreationInfo env (env.toChecksumAddress address) <;>
        cases hG : env.getCode (env.toChecksumAddress address) <;>
          cases hV : (checkIfVerified env (env.toChecksumAddress address)).isVerified <;>
            cases hS : truthyStr
              ((checkIfVerified env (env.toChecksumAddress address)).sourceCode) <;>
              simp [degradedReport]

/-- C10: when the code is the empty sentinel and the balance/nonce
lookups succeed, the non-contract report still carries the error note
`'Address is not a contract'`. -/
theorem analyzeAddress_nonContract_errorNote :
    ∀ (env : Env) (address code : String) (balance txCount : Nat),
      env.isAddress address = true →
      env.getCode (env.toChecksumAddress address) = .ok code →
      (code = "0x" ∨ code = "0x0") →
      env.getBalance (env.toChecksumAddress address) = .ok balance →
      env.getTransactionCount (env.toChecksumAddress address) = .ok txCount →
      (analyzeAddress env address).error = some "Address is not a contract" ∧
      (analyzeAddress env address).isContract = false := by
  intro env address code balance txCount hA hG hcode hB hT
  have hC : checkIfContract env (env.toChecksumAddress address) = false := by
    rcases hcode with h | h <;> simp [checkIfContract, hG, h]
  simp [analyzeAddress, analyzeAddressCore, hA, hC, hB, hT]

/-- Witness for C10 at the concrete environment `envNotContract`. -/
theorem analyzeAddress_nonContract_errorNote_witness :
    (analyzeAddress envNotContract "0xab").error =
      some "Address is not a contract" ∧
    (analyzeAddress envNotContract "0xab").isContract = false :=
  analyzeAddress_nonContract_errorNote envNotContract "0xab" "0x"
    1000000000000000000 7 rfl rfl (Or.inl rfl) rfl rfl

/-- Counterexample to C2 as stated: with `getCode` returning the
empty-code sentinel but the balance lookup rejecting, the outer error
boundary produces a report with `ethBalance` and `transactionCount`
absent, contradicting "ethBalance and transactionCount present". -/
theorem analyzeAddress_emptyCode_balanceFail_counterexample :
    envBalanceFail.getCode (envBalanceFail.toChecksumAddress "0xab") =
      .ok "0x" ∧
    (analyzeAddress envBalanceFail "0xab").ethBalance = none ∧
    (analyzeAddress envBalanceFail "0xab").transactionCount = none ∧
    (analyzeAddress envBalanceFail "0xab").error = some "network down" :=
  ⟨rfl, rfl, rfl, rfl⟩

/-- C2 amended: when `getCode` returns the empty-code sentinel AND the
subsequent balance and transaction-count lookups succeed, the report
has `isContract=false`, no standards/probableType/security fields, and
`ethBalance`/`transactionCount` present. -/
theorem analyzeAddress_emptyCode_nonContract_report :
    ∀ (env : Env) (address code : String) (balance txCount : Nat),
      env.isAddress address = true →
      env.getCode (env.toChecksumAddress address) = .ok code →
      (code = "0x" ∨ code = "0x0") →
      env.getBalance (env.toChecksumAddress address) = .ok balance →
      env.getTransactionCount (env.toChecksumAddress address) = .ok txCount →
      (analyzeAddress env address).isContract = false ∧
      (analyzeAddress env address).standards = none ∧
      (analyzeAddress env address).probableType = none ∧
      (analyzeAddress env address).securityAnalysis = none ∧
      (analyzeAddress env address).ethBalance = some (env.fromWei balance) ∧
      (analyzeAddress env address).transactionCount = some txCount := by
  intro env address code balance txCount hA hG hcode hB hT
  have hC : checkIfContract env (env.toChecksumAddress address) = false := by
    rcases hcode with h | h <;> simp [checkIfContract, hG, h]
  simp [analyzeAddress, analyzeAddressCore, hA, hC, hB, hT]

/-- Witness for the amended C2 at the concrete environment
`envNotContract`. -/
theorem analyzeAddress_emptyCode_nonContract_report_witness :
    (analyzeAddress envNotContract "0xab").standards = none ∧
    (analyzeAddress envNotContract "0xab").ethBalance = some "1" ∧
    (analyzeAddress envNotContract "0xab").transactionCount = some 7 :=
  ⟨(analyzeAddress_emptyCode_nonContract_report envNotContract "0xab" "0x"
      1000000000000000000 7 rfl rfl (Or.inl rfl) rfl rfl).2.1,
   (analyzeAddress_emptyCode_nonContract_report envNotContract "0xab" "0x"
      1000000000000000000 7 rfl rfl (Or.inl rfl) rfl rfl).2.2.2.2.1,
   (analyzeAddress_emptyCode_nonContract_report envNotContract "0xab" "0x"
      1000000000000000000 7 rfl rfl (Or.inl rfl) rfl rfl).2.2.2.2.2⟩

/-- Counterexample to C6 as stated: with `getCode` rejecting with a
network error, the check helper catches the error and returns `false`;
the pipeline then takes the non-contract path (balance and nonce are
fetched, the error note is `'Address is not a contract'`) instead of
propagating the network error to the outer boundary. -/
theorem checkIfContract_networkError_counterexample :
    envCodeFail.getCode "0xAB" = .error "network error" ∧
    checkIfContract envCodeFail "0xAB" = false ∧
    (analyzeAddress envCodeFail "0xab").error =
      some "Address is not a contract" ∧
    (analyzeAddress envCodeFail "0xab").ethBalance = some "5" ∧
    (analyzeAddress envCodeFail "0xab").transactionCount = some 2 :=
  ⟨rfl, rfl, rfl, rfl, rfl⟩

/-- C6 amended: a network error raised by the `getCode` call of the
contract check is caught inside `checkIfContract`, which returns
`false`; the orchestrator then treats the address as a non-contract and
(when balance/nonce succeed) produces the non-contract report with the
`'Address is not a contract'` note, not the outer boundary's degraded
report. -/
theorem checkIfContract_catches_getCode_error :
    ∀ (env : Env) (address e : String) (balance txCount : Nat),
      env.getCode (env.toChecksumAddress address) = .error e →
      checkIfContract env (env.toChecksumAddress address) = false ∧
      (env.isAddress address = true →
        env.getBalance (env.toChecksumAddress address) = .ok balance →
        env.getTransactionCount (env.toChecksumAddress address) = .ok txCount →
        analyzeAddress env address =
          { address := env.toChecksumAddress address
            isContract := false
            isVerified := false
            error := some "Address is not a contract"
            ethBalance := some (env.fromWei balance)
            transactionCount := some txCount }) := by
  intro env address e balance txCount hG
  have hC : checkIfContract env (env.toChecksumAddress address) = false := by
    simp [checkIfContract, hG]
  refine ⟨hC, fun hA hB hT => ?_⟩
  simp [analyzeAddress, analyzeAddressCore, hA, hC, hB, hT]

/-- Witness for the amended C6 at `envCodeFail`. -/
theorem checkIfContract_catches_getCode_error_witness :
    checkIfContract envCodeFail "0xAB" = false ∧
    analyzeAddress envCodeFail "0xab" =
      { address := "0xAB"
        isContract := false
        isVerified := false
        error := some "Address is not a contract"
        ethBalance := some "5"
        transactionCount := some 2 } :=
  ⟨(checkIfContract_catches_getCode_error envCodeFail "0xab" "network error"
      5 2 rfl).1,
   (checkIfContract_catches_getCode_error envCodeFail "0xab" "network error"
      5 2 rfl).2 rfl rfl rfl⟩

/-- Counterexample to C8 as stated: when the balance lookup fails on a
non-contract address, the outer error boundary returns a report whose
`address` field is the raw input, not the checksummed form. -/
theorem analyzeAddress_rawAddress_counterexample :
    (analyzeAddress envBalanceFail "0xab").address = "0xab" ∧
    envBalanceFail.toChecksumAddress "0xab" = "0xAB" ∧
    ("0xab" : String) ≠ "0xAB" :=
  ⟨rfl, rfl, by decide⟩

/-- C8 amended: every report produced without the outer error boundary
carries the checksummed address, while the outer-boundary fallback
report carries the raw input string. -/
theorem analyzeAddress_address_field :
    ∀ (env : Env) (address : String),
      (∀ r, analyzeAddressCore env address = .ok r →
        r.address = env.toChecksumAddress address) ∧
      (∀ e, analyzeAddressCore env address = .error e →
        (analyzeAddress env address).address = address) := by
  intro env address
  constructor
  · intro r hr
    simp only [analyzeAddressCore] at hr
    repeat' split at hr
    all_goals first
      | exact Except.noConfusion hr
      | (injection hr with hr2; subst hr2; rfl)
  · intro e he
    simp [analyzeAddress, he, degradedReport]

/-- Witness for the amended C8 at `envBalanceFail` (error path) and
`envNotContract` (success path). -/
theorem analyzeAddress_address_field_witness :
    (analyzeAddress envBalanceFail "0xab").address = "0xab" ∧
    (analyzeAddress envNotContract "0xab").address = "0xAB" :=
  ⟨(analyzeAddress_address_field envBalanceFail "0xab").2 "network down" rfl,
   by
    have h := (analyzeAddress_address_field envNotContract "0xab").1
    have hok : analyzeAddressCore envNotContract "0xab" =
        .ok (analyzeAddress envNotContract "0xab") := rfl
    exact h _ hok⟩

/-- C7: when the creation-transaction lookup succeeds but the
transaction and block lookups both reject, the report still carries the
creator address and creation transaction hash with the timestamp
absent, and a verified contract's pipeline still completes with full
verification and standards data and no error note. -/
theorem analyzeAddress_creation_partial_failure :
    ∀ (env : Env) (address code creator txh et : String)
      (rest : List CreationRecord) (cd : SourceRecord)
      (abiList : List ABIEntry),
      env.isAddress address = true →
      env.getCode (env.toChecksumAddress address) = .ok code →
      code ≠ "0x" → code ≠ "0x0" →
      env.getContractCreation (env.toChecksumAddress address) =
        .ok { status := "1"
              result := { contractCreator := creator, txHash := txh } :: rest } →
      env.getTransactionByHash txh = .error et →
      (∀ b, ∃ eb, env.getBlockReward b = .error eb) →
      env.getSourceCode (env.toChecksumAddress address) =
        .ok { status := "1", result := [cd] } →
      cd.SourceCode.length > 2 →
      env.jsonParseAbi cd.ABI = .ok abiList →
      (analyzeAddress env address).contractCreator = some creator ∧
      (analyzeAddress env address).creationTx = some txh ∧
      (analyzeAddress env address).creationTimestamp = none ∧
      (analyzeAddress env address).isContract = true ∧
      (analyzeAddress env address).isVerified = true ∧
      (analyzeAddress env address).standards =
        some (detectContractStandards (some abiList)) ∧
      (analyzeAddress env address).error = none := by
  intro env address code creator txh et rest cd abiList
    hA hG hx hx0 hcr htx _hblock hsrc hlen habi
  have hC : checkIfContract env (env.toChecksumAddress address) = true := by
    simp [checkIfContract, hG, hx, hx0]
  have hCI : getContractCreationInfo env (env.toChecksumAddress address) =
      some { contractCreator := creator, txHash := txh, timestamp := none } := by
    simp [getContractCreationInfo, hcr, lookupCreationTimestamp, htx]
  have hne : cd.SourceCode ≠ "" := by
    intro h
    rw [h] at hlen
    exact absurd hlen (by decide)
  have hne2 : cd.SourceCode ≠ "{}" := by
    intro h
    rw [h] at hlen
    exact absurd hlen (by decide)
  have hV : checkIfVerified env (env.toChecksumAddress address) =
      { isVerified := true
        contractName := some cd.ContractName
        sourceCode := some cd.SourceCode
        abi := some abiList } := by
    simp [checkIfVerified, hsrc, habi, hne, hne2, hlen]
  simp [analyzeAddress, analyzeAddressCore, hA, hC, hCI, hG, hV, truthyStr, hne]

/-- Witness for C7 at the concrete environment `envVerified`. -/
theorem analyzeAddress_creation_partial_failure_witness :
    (analyzeAddress envVerified "0xab").contractCreator = some "0xCREATOR" ∧
    (analyzeAddress envVerified "0xab").creationTx = some "0xTXHASH" ∧
    (analyzeAddress envVerified "0xab").creationTimestamp = none ∧
    (analyzeAddress envVerified "0xab").isVerified = true ∧
    (analyzeAddress envVerified "0xab").standards =
      some { isERC20 := false, isERC721 := false, isERC1155 := false } :=
  have h := analyzeAddress_creation_partial_failure envVerified "0xab"
    "0x6080604052" "0xCREATOR" "0xTXHASH" "tx lookup down" []
    { SourceCode := "contract Foo ... source text", ContractName := "Foo", ABI := "[]" }
    [] rfl rfl (by decide) (by decide) rfl rfl
    (fun b => ⟨"block lookup down", rfl⟩) rfl (by decide) rfl
  ⟨h.1, h.2.1, h.2.2.1, h.2.2.2.2.1, h.2.2.2.2.2.1⟩
